import Mathlib

/-!
Verification development for the `sage_notification` Django module.

The data model and operations below are a shallow embedding of
`sage_notification/models.py`, `sage_notification/repository/queryset.py`,
`sage_notification/repository/service.py` and `sage_notification/forms.py`.
Time is modelled as an integer count of seconds (one hour = 3600 seconds);
the database is a list of notification rows; `Python`-level failures
(NameError, ValueError, ValidationError, IntegrityError, FieldError,
MultipleObjectsReturned) are modelled by an error type on `Except`.
-/

/-- Failure modes surfaced by the embedded operations: Python `NameError` and
`ValueError`, Django form `ValidationError`, database `IntegrityError`
(NOT NULL violation), queryset `FieldError` (unresolvable filter keyword) and
`MultipleObjectsReturned` from `get`/`update_or_create`. -/
inductive PyError where
  | nameError (missing : String)
  | valueError (msg : String)
  | validationError (msg : String)
  | integrityError
  | fieldError (field : String)
  | multipleObjectsReturned
deriving DecidableEq

/-- A Python model instance passed as `sender` or `entity` to the services:
its ContentType id (what `ContentType.objects.get_for_model` resolves) and
its primary key `id`. -/
structure PyObject where
  ctype : Nat
  oid : Nat
deriving DecidableEq

/-- Constructor arguments shared by the three services
(`BaseNotificationService.__init__` in repository/service.py:11-18):
user, sender, entity, context, each optional. -/
structure ServiceArgs where
  user : Option Nat
  sender : Option PyObject
  entity : Option PyObject
  context : Option String
deriving DecidableEq

/-- One row of the `notification` table (models.py:20-246).  Nullable columns
are `Option`; `sender_type` and `sender_id` are declared without `null=True`
in models.py:76-91, so the schema forbids NULL there, but a caller may still
try to write NULL (the field type stays `Option` and `Notification.objects.create`
enforces the constraint).  `created_at`/`modified_at` come from
`sage_tools.mixins.models.TimeStampMixin` (models.py:17, 20); the repository's
admin.py:48 lists exactly those two timestamp field names.  Enumerated columns
(`priority`, `scope`, `delivery_method`, `severity`) are stored as the strings
the code passes around. -/
structure Notification where
  id : Nat
  user : Option Nat
  sender_type : Option Nat
  sender_id : Option Nat
  action : String
  entity_type : Option Nat
  entity_id : Option Nat
  context : Option String
  is_read : Bool
  is_sent : Bool
  priority : String
  expires_at : Option Int
  is_visible : Bool
  scope : String
  group_id : Option String
  delivery_method : String
  severity : String
  created_at : Int
  modified_at : Int
deriving DecidableEq

/-- `Notification.is_expired` (models.py:291-297): if `expires_at` is set
(a datetime object is always truthy in Python), compare `expires_at <= now()`;
otherwise return False.  `t` is the current time. -/
def Notification.is_expired (n : Notification) (t : Int) : Bool :=
  match n.expires_at with
  | some e => decide (e ≤ t)
  | none => false

/-- `Notification.mark_as_read` (models.py:252-258): sets `is_read` and calls
`save()` (which refreshes `modified_at`) only when the record is unread.
The returned Bool records whether a write (`save()`) happened. -/
def Notification.mark_as_read (n : Notification) (t : Int) : Notification × Bool :=
  if !n.is_read then ({ n with is_read := true, modified_at := t }, true)
  else (n, false)

/-- The row predicate of `self.filter(user=user, is_read=False)`
(queryset.py:120). -/
def readPending (u : Option Nat) (n : Notification) : Bool :=
  decide (n.user = u) && !n.is_read

/-- `NotificationQuerySet.mark_all_as_read` (queryset.py:116-120):
`filter(user=user, is_read=False).update(is_read=True)`, returning the number
of rows the bulk UPDATE touched.  A bulk `update` bypasses `save()`, so
`modified_at` is left alone. -/
def NotificationQuerySet.mark_all_as_read (db : List Notification) (u : Option Nat) :
    List Notification × Nat :=
  ((db.map fun n => if readPending u n then { n with is_read := true } else n),
   (db.filter (readPending u)).length)

/-- The row predicate of `self.filter(user=user, is_visible=True)`
(queryset.py:132). -/
def visiblePending (u : Option Nat) (n : Notification) : Bool :=
  decide (n.user = u) && n.is_visible

/-- `NotificationQuerySet.archive_all` (queryset.py:128-132):
`filter(user=user, is_visible=True).update(is_visible=False)`, returning the
number of rows the bulk UPDATE touched. -/
def NotificationQuerySet.archive_all (db : List Notification) (u : Option Nat) :
    List Notification × Nat :=
  ((db.map fun n => if visiblePending u n then { n with is_visible := false } else n),
   (db.filter (visiblePending u)).length)

/-- The row predicate of `expires_at__lte=<current time>` (queryset.py:144):
a NULL `expires_at` never satisfies an `__lte` lookup. -/
def pastExpiry (t : Int) (n : Notification) : Bool :=
  match n.expires_at with
  | some e => decide (e ≤ t)
  | none => false

/-- `NotificationQuerySet.delete_all_expired` (queryset.py:140-144):
`filter(expires_at__lte=Now()).delete()`; returns the remaining rows and the
number of rows deleted. -/
def NotificationQuerySet.delete_all_expired (db : List Notification) (t : Int) :
    List Notification × Nat :=
  ((db.filter fun n => !pastExpiry t n), (db.filter (pastExpiry t)).length)

/-- A `<field>__gte=<bound>` queryset filter on a datetime keyword, as Django
resolves it against the notification table's datetime columns.  Those columns
are `created_at` and `modified_at` (from `TimeStampMixin`; admin.py:48 and
admin.py:86 list exactly these names) and `expires_at` (models.py:161-170).
Any other keyword cannot be resolved into a field and raises `FieldError`. -/
def NotificationQuerySet.filter_datetime_gte (field : String) (bound : Int)
    (db : List Notification) : Except PyError (List Notification) :=
  if field = "created_at" then
    .ok (db.filter fun n => decide (bound ≤ n.created_at))
  else if field = "modified_at" then
    .ok (db.filter fun n => decide (bound ≤ n.modified_at))
  else if field = "expires_at" then
    .ok (db.filter fun n =>
      match n.expires_at with
      | some e => decide (bound ≤ e)
      | none => false)
  else .error (PyError.fieldError field)

/-- `NotificationQuerySet.updated_in_last` (queryset.py:160-165):
`since_time = now() - timedelta(hours=hours)` followed by
`self.filter(updated_at__gte=since_time)` — note the keyword the source uses
is `updated_at`. -/
def NotificationQuerySet.updated_in_last (db : List Notification) (t hours : Int) :
    Except PyError (List Notification) :=
  NotificationQuerySet.filter_datetime_gte "updated_at" (t - hours * 3600) db

/-- The names bound at module level in `sage_notification/repository/service.py`:
its three import statements (service.py:1-3) bind `ABC`, `abstractmethod`,
`ContentType` and `Notification`, and the class statements bind the five class
names.  Nothing binds `now` or `timedelta` in this module. -/
def serviceModuleGlobals : List String :=
  ["ABC", "abstractmethod", "ContentType", "Notification",
   "BaseNotificationService", "DefaultNotificationService",
   "GroupNotificationService", "ExpiringNotificationService",
   "NotificationServiceFactory"]

/-- `Notification.objects.create(...)`: inserts one row, enforcing the schema's
NOT NULL constraints on `sender_type` and `sender_id` (models.py:76-91 declare
them without `null=True`); a NULL in either raises `IntegrityError` and writes
nothing. -/
def Notification.objects.create (db : List Notification) (n : Notification) :
    Except PyError (List Notification × Notification) :=
  if n.sender_type.isSome && n.sender_id.isSome then .ok (db ++ [n], n)
  else .error PyError.integrityError

/-- The lookup predicate `user=self.user, group_id=group_id` that
`GroupNotificationService.create_notification` passes to `update_or_create`
(service.py:71-73). -/
def matchesGroupKey (u : Option Nat) (g : String) (n : Notification) : Bool :=
  decide (n.user = u) && decide (n.group_id = some g)

/-- `Notification.objects.update_or_create(user=..., group_id=..., defaults=...)`
as called at service.py:71-86: fetch the row matching the lookup; if none,
create one from lookup plus defaults (fresh id `nId`, model defaults for the
remaining columns, `created_at`/`modified_at` set to the current time `t`);
if exactly one, overwrite the `defaults` fields on it and `save()` (refreshing
`modified_at`); if several, raise `MultipleObjectsReturned`.  The defaults dict
(service.py:74-85) carries sender_type, sender_id, action, entity_type,
entity_id, context, priority, severity, delivery_method and `is_read: False`.
Either write path enforces the NOT NULL sender columns. -/
def Notification.objects.update_or_create (db : List Notification) (nId : Nat)
    (a : ServiceArgs) (act g pr sev dm : String) (t : Int) :
    Except PyError (List Notification × Notification × Bool) :=
  match db.filter (matchesGroupKey a.user g) with
  | [] =>
    match Notification.objects.create db
      { id := nId, user := a.user,
        sender_type := a.sender.map PyObject.ctype,
        sender_id := a.sender.map PyObject.oid,
        action := act,
        entity_type := a.entity.map PyObject.ctype,
        entity_id := a.entity.map PyObject.oid,
        context := a.context,
        is_read := false, is_sent := false, priority := pr,
        expires_at := none, is_visible := true, scope := "user",
        group_id := some g, delivery_method := dm, severity := sev,
        created_at := t, modified_at := t } with
    | .ok (db2, n) => .ok (db2, n, true)
    | .error e => .error e
  | [old] =>
    let n : Notification :=
      { old with
        sender_type := a.sender.map PyObject.ctype,
        sender_id := a.sender.map PyObject.oid,
        action := act,
        entity_type := a.entity.map PyObject.ctype,
        entity_id := a.entity.map PyObject.oid,
        context := a.context,
        priority := pr, severity := sev, delivery_method := dm,
        is_read := false, modified_at := t }
    if n.sender_type.isSome && n.sender_id.isSome then
      .ok (db.map (fun m => if matchesGroupKey a.user g m then n else m), n, false)
    else .error PyError.integrityError
  | _ => .error PyError.multipleObjectsReturned

/-- `DefaultNotificationService.create_notification` (service.py:44-60):
unconditionally `Notification.objects.create(...)` with the service's
user/sender/entity/context and the call's action/priority/severity/
delivery_method; the remaining columns take their model defaults. -/
def DefaultNotificationService.create_notification (db : List Notification)
    (nId : Nat) (a : ServiceArgs) (act pr sev dm : String) (t : Int) :
    Except PyError (List Notification × Notification) :=
  Notification.objects.create db
    { id := nId, user := a.user,
      sender_type := a.sender.map PyObject.ctype,
      sender_id := a.sender.map PyObject.oid,
      action := act,
      entity_type := a.entity.map PyObject.ctype,
      entity_id := a.entity.map PyObject.oid,
      context := a.context,
      is_read := false, is_sent := false, priority := pr,
      expires_at := none, is_visible := true, scope := "user",
      group_id := none, delivery_method := dm, severity := sev,
      created_at := t, modified_at := t }

/-- `GroupNotificationService.create_notification` (service.py:67-87):
delegates to `update_or_create` and then `return notification` — the `created`
flag of the pair is dropped on the floor. -/
def GroupNotificationService.create_notification (db : List Notification)
    (nId : Nat) (a : ServiceArgs) (act g pr sev dm : String) (t : Int) :
    Except PyError (List Notification × Notification) :=
  match Notification.objects.update_or_create db nId a act g pr sev dm t with
  | .ok (db2, n, _created) => .ok (db2, n)
  | .error e => .error e

/-- `ExpiringNotificationService.create_notification` (service.py:94-112):
line 98 evaluates `now() + timedelta(hours=expires_in_hours)`.  Python looks
`now` up in the module's global namespace at call time; if the lookup fails the
statement raises `NameError` before any row is written.  When the name does
resolve, the insert carries `expires_at = t + expires_in_hours * 3600`. -/
def ExpiringNotificationService.create_notification (db : List Notification)
    (nId : Nat) (a : ServiceArgs) (act : String) (expires_in_hours : Int)
    (pr sev dm : String) (t : Int) :
    Except PyError (List Notification × Notification) :=
  if "now" ∈ serviceModuleGlobals then
    Notification.objects.create db
      { id := nId, user := a.user,
        sender_type := a.sender.map PyObject.ctype,
        sender_id := a.sender.map PyObject.oid,
        action := act,
        entity_type := a.entity.map PyObject.ctype,
        entity_id := a.entity.map PyObject.oid,
        context := a.context,
        is_read := false, is_sent := false, priority := pr,
        expires_at := some (t + expires_in_hours * 3600),
        is_visible := true, scope := "user",
        group_id := none, delivery_method := dm, severity := sev,
        created_at := t, modified_at := t }
  else .error (PyError.nameError "now")

/-- A service instance as returned by the factory: one of the three strategy
classes, holding the shared constructor arguments. -/
inductive ServiceInstance where
  | defaultService (a : ServiceArgs)
  | groupedService (a : ServiceArgs)
  | expiringService (a : ServiceArgs)
deriving DecidableEq

/-- `NotificationServiceFactory.get_service` (service.py:119-131): dispatch on
the string tag; any unknown tag raises
`ValueError(f"Unknown service type: {service_type}")`.  Constructing a service
instance touches no storage. -/
def NotificationServiceFactory.get_service (service_type : String) (a : ServiceArgs) :
    Except PyError ServiceInstance :=
  if service_type = "default" then .ok (ServiceInstance.defaultService a)
  else if service_type = "grouped" then .ok (ServiceInstance.groupedService a)
  else if service_type = "expiring" then .ok (ServiceInstance.expiringService a)
  else .error (PyError.valueError ("Unknown service type: " ++ service_type))

/-- Python truthiness of the form's `sender_object_id` (an optional integer):
`None` and `0` are falsy, every other integer is truthy. -/
def truthyId : Option Nat → Bool
  | none => false
  | some k => decide (k ≠ 0)

/-- Python truthiness of the form's `sender_content_type` (an optional model
object): `None` is falsy, any object is truthy. -/
def truthyCT : Option Nat → Bool
  | none => false
  | some _ => true

/-- `NotificationAdminForm.clean` (forms.py:23-37): raises `ValidationError`
when a sender type is supplied without a (truthy) object id, or an object id
without a type; otherwise copies the pair into
`cleaned_data['sender_type']` / `cleaned_data['sender_id']`. -/
def NotificationAdminForm.clean (sender_content_type sender_object_id : Option Nat) :
    Except PyError (Option Nat × Option Nat) :=
  if truthyCT sender_content_type && !truthyId sender_object_id then
    .error (PyError.validationError
      "You must specify an object ID for the selected sender type.")
  else if !truthyCT sender_content_type && truthyId sender_object_id then
    .error (PyError.validationError
      "You must select a sender type if providing an object ID.")
  else .ok (sender_content_type, sender_object_id)

/-- Writing a notification through the admin form: run
`NotificationAdminForm.clean` on the sender pair, then insert the instance
built from the cleaned data (the final write still goes through the schema's
NOT NULL enforcement in `Notification.objects.create`).  Any error leaves the
store untouched. -/
def NotificationAdminForm.save_record (db : List Notification) (nId : Nat)
    (user sender_content_type sender_object_id : Option Nat) (act : String)
    (t : Int) : Except PyError (List Notification × Notification) :=
  match NotificationAdminForm.clean sender_content_type sender_object_id with
  | .error e => .error e
  | .ok (ct, oid) =>
    Notification.objects.create db
      { id := nId, user := user, sender_type := ct, sender_id := oid,
        action := act, entity_type := none, entity_id := none, context := none,
        is_read := false, is_sent := false, priority := "medium",
        expires_at := none, is_visible := true, scope := "user",
        group_id := none, delivery_method := "web", severity := "info",
        created_at := t, modified_at := t }

/-- A convenient fully-populated base row for concrete instances. -/
def baseN : Notification :=
  { id := 0, user := some 1, sender_type := some 7, sender_id := some 3,
    action := "liked", entity_type := none, entity_id := none, context := none,
    is_read := false, is_sent := false, priority := "medium",
    expires_at := none, is_visible := true, scope := "user",
    group_id := none, delivery_method := "web", severity := "info",
    created_at := 0, modified_at := 0 }

/-- Constructor arguments used for concrete service calls: user 1 with a
sender of ContentType 7 and id 3, no entity, no context. -/
def argsEx : ServiceArgs :=
  { user := some 1, sender := some { ctype := 7, oid := 3 },
    entity := none, context := none }

/-- The row the grouped upsert produces for `argsEx` with action "liked",
group "g1" and defaults, at time 5 with fresh id 9. -/
def groupedEx : Notification :=
  { baseN with id := 9, group_id := some "g1", created_at := 5, modified_at := 5 }

/-- A pre-existing grouped row for the same (user, group) key as `groupedEx`,
differing in the fields the upsert overwrites: action and read state. -/
def groupedOldEx : Notification :=
  { groupedEx with action := "commented", is_read := true }

/-- A concrete store: user 1 owns three visible rows (one of them read) and
two hidden rows; user 2 owns two visible rows. -/
def exDb : List Notification :=
  [ { baseN with id := 1 },
    { baseN with id := 2, is_read := true },
    { baseN with id := 3 },
    { baseN with id := 4, is_visible := false },
    { baseN with id := 5, is_visible := false, is_read := true },
    { baseN with id := 6, user := some 2 },
    { baseN with id := 7, user := some 2, is_read := true } ]

/-- A concrete store for expiry: one row expired at time 3, one row with no
expiry, one row expiring at time 20. -/
def exDbExpiry : List Notification :=
  [ { baseN with id := 1, expires_at := some 3 },
    { baseN with id := 2 },
    { baseN with id := 3, expires_at := some 20 } ]

/-!  Helper lemmas shared by the claim theorems. -/

/-- Replacing every row matching `p` by a fixed row `n` that itself matches `p`
turns the matching sublist into constantly-`n`. -/
theorem filter_map_const {α : Type} (p : α → Bool) (n : α) (hn : p n = true) :
    ∀ l : List α,
      ((l.map fun m => if p m then n else m).filter p) = (l.filter p).map fun _ => n := by
  intro l
  induction l with
  | nil => simp
  | cons m l ih =>
    by_cases hm : p m = true
    · simp [List.filter_cons, hm, hn, ih]
    · have hm2 : p m = false := by simpa using hm
      simp [List.filter_cons, hm2, ih]

/-- A list splits, in length, into the part satisfying `p` and the part
refuting it. -/
theorem length_filter_add_length_filter_not {α : Type} (p : α → Bool) :
    ∀ l : List α,
      (l.filter p).length + (l.filter fun a => !p a).length = l.length := by
  intro l
  induction l with
  | nil => simp
  | cons m l ih =>
    by_cases hm : p m = true
    · simp [List.filter_cons, hm, ← ih]; omega
    · have hm2 : p m = false := by simpa using hm
      simp [List.filter_cons, hm2, ← ih]; omega

/-- Unfolding of the `expires_at__lte` predicate into the spec's phrasing. -/
theorem pastExpiry_iff (t : Int) (n : Notification) :
    pastExpiry t n = true ↔ ∃ e, n.expires_at = some e ∧ e ≤ t := by
  cases h : n.expires_at with
  | none => simp [pastExpiry, h]
  | some e => simp [pastExpiry, h]

/-- After the bulk mark-as-read update, no row of that user is still unread. -/
theorem mark_all_filter_nil (u : Option Nat) :
    ∀ db : List Notification,
      ((db.map fun n => if readPending u n then { n with is_read := true } else n).filter
        (readPending u)) = [] := by
  intro db
  induction db with
  | nil => simp
  | cons m l ih =>
    by_cases hm : readPending u m = true
    · have hfalse : readPending u { m with is_read := true } = false := by
        simp [readPending]
      simp [hm, List.filter_cons, hfalse, ih]
    · have hm2 : readPending u m = false := by simpa using hm
      simp [hm2, List.filter_cons, ih]


/-- C2: the claim says every call of the expiring creation service inserts a
row with `expires_at = now + expires_in_hours` hours and completes without
error.  In the code, `service.py` never imports `now` or `timedelta`, so line
98 raises `NameError` on every call, before any row is written. -/
theorem C2_expiring_always_name_error (db : List Notification) (nId : Nat)
    (a : ServiceArgs) (act : String) (expires_in_hours : Int)
    (pr sev dm : String) (t : Int) :
    ExpiringNotificationService.create_notification db nId a act
      expires_in_hours pr sev dm t = .error (PyError.nameError "now") := by
  have h : ("now" ∈ serviceModuleGlobals) = False := by
    simp [serviceModuleGlobals]
  simp [ExpiringNotificationService.create_notification, h]

/-- C3: `is_expired()` is true iff `expires_at` is non-null and at most the
current time, and a record with null `expires_at` is never expired. -/
theorem C3_is_expired_iff (n : Notification) (t : Int) :
    (n.is_expired t = true ↔ ∃ e, n.expires_at = some e ∧ e ≤ t) ∧
    (n.expires_at = none → n.is_expired t = false) := by
  constructor
  · cases h : n.expires_at with
    | none => simp [Notification.is_expired, h]
    | some e => simp [Notification.is_expired, h]
  · intro h
    simp [Notification.is_expired, h]

/-- C3 witness: the theorem applied to a record with no expiry at time 4. -/
theorem C3_is_expired_iff_witness : Notification.is_expired baseN 4 = false :=
  (C3_is_expired_iff baseN 4).2 rfl

/-- C5: the claim says `updated_in_last(h)` returns the records with
`modified_at ≥ now − h` hours.  The code filters on the keyword `updated_at`,
which is not a column of the notification table (the timestamp columns are
`created_at` and `modified_at`), so every call raises `FieldError` instead of
returning any records. -/
theorem C5_updated_in_last_field_error (db : List Notification) (t hours : Int) :
    NotificationQuerySet.updated_in_last db t hours =
      .error (PyError.fieldError "updated_at") := by
  simp [NotificationQuerySet.updated_in_last, NotificationQuerySet.filter_datetime_gte]

/-- C4: `mark_as_read` on an already-read notification performs no write, and
a second consecutive `mark_all_as_read(u)` reports 0 affected records. -/
theorem C4_mark_as_read_idempotent :
    (∀ (n : Notification) (t : Int), n.is_read = true →
      n.mark_as_read t = (n, false)) ∧
    (∀ (db : List Notification) (u : Option Nat),
      (NotificationQuerySet.mark_all_as_read
        (NotificationQuerySet.mark_all_as_read db u).1 u).2 = 0) := by
  constructor
  · intro n t h
    simp [Notification.mark_as_read, h]
  · intro db u
    simp [NotificationQuerySet.mark_all_as_read, mark_all_filter_nil u db]

/-- C4 witness: the theorem applied to a concrete read record and to the
concrete store `exDb`. -/
theorem C4_mark_as_read_idempotent_witness :
    Notification.mark_as_read { baseN with is_read := true } 9 =
      ({ baseN with is_read := true }, false) ∧
    (NotificationQuerySet.mark_all_as_read
      (NotificationQuerySet.mark_all_as_read exDb (some 1)).1 (some 1)).2 = 0 :=
  ⟨C4_mark_as_read_idempotent.1 { baseN with is_read := true } 9 rfl,
   C4_mark_as_read_idempotent.2 exDb (some 1)⟩

/-- C6: `delete_all_expired()` keeps exactly the records that are not past
their expiry (null or future `expires_at`), regardless of user, and the
reported count equals the number of records removed. -/
theorem C6_delete_all_expired (db : List Notification) (t : Int) :
    (∀ n, n ∈ (NotificationQuerySet.delete_all_expired db t).1 ↔
      (n ∈ db ∧ ¬ ∃ e, n.expires_at = some e ∧ e ≤ t)) ∧
    (NotificationQuerySet.delete_all_expired db t).2 +
      (NotificationQuerySet.delete_all_expired db t).1.length = db.length := by
  constructor
  · intro n
    constructor
    · intro h
      have h2 := List.mem_filter.mp h
      refine ⟨h2.1, ?_⟩
      intro hex
      have h3 : pastExpiry t n = true := (pastExpiry_iff t n).mpr hex
      simp [h3] at h2
    · intro h
      refine List.mem_filter.mpr ⟨h.1, ?_⟩
      have h3 : pastExpiry t n = false := by
        by_contra hc
        exact h.2 ((pastExpiry_iff t n).mp (by simpa using hc))
      simp [h3]
  · simpa [NotificationQuerySet.delete_all_expired] using
      length_filter_add_length_filter_not (pastExpiry t) db

/-- C6 witness: the theorem applied to the concrete store `exDbExpiry` at
time 10, where exactly the record expiring at 3 is past. -/
theorem C6_delete_all_expired_witness :
    (∀ n, n ∈ (NotificationQuerySet.delete_all_expired exDbExpiry 10).1 ↔
      (n ∈ exDbExpiry ∧ ¬ ∃ e, n.expires_at = some e ∧ e ≤ 10)) ∧
    (NotificationQuerySet.delete_all_expired exDbExpiry 10).2 +
      (NotificationQuerySet.delete_all_expired exDbExpiry 10).1.length =
      exDbExpiry.length :=
  C6_delete_all_expired exDbExpiry 10

/-- C8: every record actually produced by the default creation service, the
grouped creation service or an admin-form save has both `sender_type` and
`sender_id` non-null, and form inputs supplying only one of the sender pair
are rejected before any record is written. -/
theorem C8_sender_required :
    (∀ (db : List Notification) (nId : Nat) (a : ServiceArgs)
       (act pr sev dm : String) (t : Int) (db2 : List Notification)
       (n : Notification),
      DefaultNotificationService.create_notification db nId a act pr sev dm t =
        .ok (db2, n) →
      n.sender_type.isSome = true ∧ n.sender_id.isSome = true) ∧
    (∀ (db : List Notification) (nId : Nat) (a : ServiceArgs)
       (act g pr sev dm : String) (t : Int) (db2 : List Notification)
       (n : Notification),
      GroupNotificationService.create_notification db nId a act g pr sev dm t =
        .ok (db2, n) →
      n.sender_type.isSome = true ∧ n.sender_id.isSome = true) ∧
    (∀ (db : List Notification) (nId : Nat) (u ct oid : Option Nat)
       (act : String) (t : Int),
      ((ct ≠ none ∧ oid = none) ∨ (ct = none ∧ oid ≠ none)) →
      ∃ e, NotificationAdminForm.save_record db nId u ct oid act t = .error e) ∧
    (∀ (db : List Notification) (nId : Nat) (u ct oid : Option Nat)
       (act : String) (t : Int) (db2 : List Notification) (n : Notification),
      NotificationAdminForm.save_record db nId u ct oid act t = .ok (db2, n) →
      n.sender_type.isSome = true ∧ n.sender_id.isSome = true) := by
  have hcreate : ∀ (db db2 : List Notification) (m n : Notification),
      Notification.objects.create db m = .ok (db2, n) →
      n.sender_type.isSome = true ∧ n.sender_id.isSome = true := by
    intro db db2 m n h
    by_cases hc : (m.sender_type.isSome && m.sender_id.isSome) = true
    · rw [Notification.objects.create, if_pos hc] at h
      have hmn : m = n := by
        have := congrArg (fun x => match x with
          | Except.ok (p : List Notification × Notification) => p.2
          | Except.error _ => m) h
        simpa using this
      rcases Bool.and_eq_true_iff.mp hc with ⟨h1, h2⟩
      exact ⟨hmn ▸ h1, hmn ▸ h2⟩
    · rw [Notification.objects.create, if_neg hc] at h
      exact absurd h (by simp)
  refine ⟨?_, ?_, ?_, ?_⟩
  · intro db nId a act pr sev dm t db2 n h
    exact hcreate db db2 _ n h
  · intro db nId a act g pr sev dm t db2 n h
    rw [GroupNotificationService.create_notification] at h
    cases huoc : Notification.objects.update_or_create db nId a act g pr sev dm t with
    | error e => rw [huoc] at h; exact absurd h (by simp)
    | ok trip =>
      rw [huoc] at h
      obtain ⟨db3, n3, c3⟩ := trip
      simp only at h
      have hn : n3 = n := by
        have := congrArg (fun x => match x with
          | Except.ok (p : List Notification × Notification) => p.2
          | Except.error _ => n3) h
        simpa using this
      subst hn
      rw [Notification.objects.update_or_create] at huoc
      cases hf : db.filter (matchesGroupKey a.user g) with
      | nil =>
        rw [hf] at huoc
        cases hcr : Notification.objects.create db
          { id := nId, user := a.user,
            sender_type := a.sender.map PyObject.ctype,
            sender_id := a.sender.map PyObject.oid,
            action := act,
            entity_type := a.entity.map PyObject.ctype,
            entity_id := a.entity.map PyObject.oid,
            context := a.context,
            is_read := false, is_sent := false, priority := pr,
            expires_at := none, is_visible := true, scope := "user",
            group_id := some g, delivery_method := dm, severity := sev,
            created_at := t, modified_at := t } with
        | error e => rw [hcr] at huoc; exact absurd huoc (by simp)
        | ok pr2 =>
          rw [hcr] at huoc
          obtain ⟨db4, n4⟩ := pr2
          simp only at huoc
          have hn4 : n4 = n3 := by
            have := congrArg (fun x => match x with
              | Except.ok (p : List Notification × Notification × Bool) => p.2.1
              | Except.error _ => n4) huoc
            simpa using this
          exact hn4 ▸ hcreate db db4 _ n4 hcr
      | cons old tail =>
        cases tail with
        | cons o2 t2 => rw [hf] at huoc; exact absurd huoc (by simp)
        | nil =>
          rw [hf] at huoc
          simp only at huoc
          by_cases hc : ((a.sender.map PyObject.ctype).isSome &&
              (a.sender.map PyObject.oid).isSome) = true
          · rw [if_pos hc] at huoc
            simp only [Except.ok.injEq, Prod.mk.injEq] at huoc
            obtain ⟨-, hn3, -⟩ := huoc
            rcases Bool.and_eq_true_iff.mp hc with ⟨h1, h2⟩
            rw [← hn3]
            exact ⟨h1, h2⟩
          · rw [if_neg hc] at huoc
            exact absurd huoc (by simp)
  · intro db nId u ct oid act t h
    rcases h with ⟨hct, hoid⟩ | ⟨hct, hoid⟩
    · obtain ⟨c, hc⟩ := Option.ne_none_iff_exists.mp hct
      subst hoid
      refine ⟨PyError.validationError
        "You must specify an object ID for the selected sender type.", ?_⟩
      simp [NotificationAdminForm.save_record, NotificationAdminForm.clean,
        truthyCT, truthyId, ← hc]
    · subst hct
      obtain ⟨k, hk⟩ := Option.ne_none_iff_exists.mp hoid
      by_cases hz : k = 0
      · refine ⟨PyError.integrityError, ?_⟩
        simp [NotificationAdminForm.save_record, NotificationAdminForm.clean,
          Notification.objects.create, truthyCT, truthyId, ← hk, hz]
      · refine ⟨PyError.validationError
          "You must select a sender type if providing an object ID.", ?_⟩
        simp [NotificationAdminForm.save_record, NotificationAdminForm.clean,
          truthyCT, truthyId, ← hk, hz]
  · intro db nId u ct oid act t db2 n h
    rw [NotificationAdminForm.save_record] at h
    cases hcl : NotificationAdminForm.clean ct oid with
    | error e => rw [hcl] at h; exact absurd h (by simp)
    | ok pr2 =>
      rw [hcl] at h
      obtain ⟨ct2, oid2⟩ := pr2
      simp only at h
      exact hcreate db db2 _ n h

/-- C8 witness: the theorem applied to concrete inputs — a default-service
call with a present sender yields a record with both sender columns set, and
a form input giving a sender type without an id is rejected. -/
theorem C8_sender_required_witness :
    (∀ (db2 : List Notification) (n : Notification),
      DefaultNotificationService.create_notification [] 1 argsEx
        "liked" "medium" "info" "web" 0 = .ok (db2, n) →
      n.sender_type.isSome = true ∧ n.sender_id.isSome = true) ∧
    (∃ e, NotificationAdminForm.save_record [] 1 (some 1) (some 7) none
      "liked" 0 = .error e) :=
  ⟨fun db2 n h => C8_sender_required.1 [] 1 argsEx "liked" "medium" "info" "web" 0 db2 n h,
   C8_sender_required.2.2.1 [] 1 (some 1) (some 7) none "liked" 0
     (Or.inl ⟨by simp, rfl⟩)⟩

/-- C9: the factory returns the matching strategy for each of the three known
tags and raises `ValueError` for every other tag (creating nothing: the
factory is a pure dispatch and touches no storage). -/
theorem C9_factory_dispatch :
    (∀ (ty : String) (a : ServiceArgs), ty ≠ "default" → ty ≠ "grouped" →
      ty ≠ "expiring" →
      NotificationServiceFactory.get_service ty a =
        .error (PyError.valueError ("Unknown service type: " ++ ty))) ∧
    (∀ a : ServiceArgs,
      NotificationServiceFactory.get_service "default" a =
        .ok (ServiceInstance.defaultService a) ∧
      NotificationServiceFactory.get_service "grouped" a =
        .ok (ServiceInstance.groupedService a) ∧
      NotificationServiceFactory.get_service "expiring" a =
        .ok (ServiceInstance.expiringService a)) := by
  constructor
  · intro ty a h1 h2 h3
    simp [NotificationServiceFactory.get_service, h1, h2, h3]
  · intro a
    refine ⟨?_, ?_, ?_⟩ <;> simp [NotificationServiceFactory.get_service]

/-- C9 witness: the theorem applied to the unknown tag "unknown" and to the
three known tags with concrete arguments. -/
theorem C9_factory_dispatch_witness :
    NotificationServiceFactory.get_service "unknown" argsEx =
      .error (PyError.valueError ("Unknown service type: " ++ "unknown")) ∧
    NotificationServiceFactory.get_service "default" argsEx =
      .ok (ServiceInstance.defaultService argsEx) :=
  ⟨C9_factory_dispatch.1 "unknown" argsEx (by decide) (by decide) (by decide),
   (C9_factory_dispatch.2 argsEx).1⟩

/-- C10: `archive_all(u)` clears `is_visible` on exactly the currently visible
records of `u` (pointwise: a visible record of `u` is replaced by the same
record with `is_visible := false`, every other record — hidden or owned by a
different user — is kept word-for-word), no record is added or removed, and
the returned count is the number of visible records of `u`. -/
theorem C10_archive_all (db : List Notification) (u : Option Nat) :
    ((NotificationQuerySet.archive_all db u).1.length = db.length) ∧
    ((NotificationQuerySet.archive_all db u).2 =
      (db.filter fun n => decide (n.user = u ∧ n.is_visible = true)).length) ∧
    (∀ (i : Nat) (h : i < db.length)
       (h2 : i < (NotificationQuerySet.archive_all db u).1.length),
      (((db.get ⟨i, h⟩).user = u ∧ (db.get ⟨i, h⟩).is_visible = true) →
        (NotificationQuerySet.archive_all db u).1.get ⟨i, h2⟩ =
          { db.get ⟨i, h⟩ with is_visible := false }) ∧
      (¬ ((db.get ⟨i, h⟩).user = u ∧ (db.get ⟨i, h⟩).is_visible = true) →
        (NotificationQuerySet.archive_all db u).1.get ⟨i, h2⟩ = db.get ⟨i, h⟩)) := by
  refine ⟨?_, ?_, ?_⟩
  · simp [NotificationQuerySet.archive_all]
  · have hpred : ∀ n : Notification,
        visiblePending u n = decide (n.user = u ∧ n.is_visible = true) := by
      intro n
      cases hv : n.is_visible <;> simp [visiblePending, hv]
    simp only [NotificationQuerySet.archive_all]
    rw [List.filter_congr (fun n _ => hpred n)]
  · intro i h h2
    have hget : (NotificationQuerySet.archive_all db u).1.get ⟨i, h2⟩ =
        (if visiblePending u (db.get ⟨i, h⟩)
         then { db.get ⟨i, h⟩ with is_visible := false }
         else db.get ⟨i, h⟩) := by
      simp [NotificationQuerySet.archive_all, List.get_eq_getElem, List.getElem_map]
    constructor
    · intro hcond
      have hvp : visiblePending u (db.get ⟨i, h⟩) = true := by
        simp only [visiblePending, Bool.and_eq_true, decide_eq_true_eq]
        exact ⟨hcond.1, hcond.2⟩
      rw [hget, if_pos hvp]
    · intro hcond
      rw [hget, if_neg ?_]
      intro hvp
      rcases Bool.and_eq_true_iff.mp hvp with ⟨h1, h2⟩
      exact hcond ⟨of_decide_eq_true h1, h2⟩

/-- C10 witness: the theorem applied to the concrete store `exDb`, in which
user 1 has three visible and two hidden records and user 2 has two records:
the store keeps its size, the count is 3, and the first record (visible, user
1) is archived while the fourth (already hidden) is untouched. -/
theorem C10_archive_all_witness :
    ((NotificationQuerySet.archive_all exDb (some 1)).1.length = exDb.length) ∧
    ((NotificationQuerySet.archive_all exDb (some 1)).2 = 3) := by
  refine ⟨(C10_archive_all exDb (some 1)).1, ?_⟩
  rw [(C10_archive_all exDb (some 1)).2.1]
  decide

/-- C1: the grouped creation is an upsert keyed on (recipient, group_id): on a
store holding at most one record for the pair (the invariant the upsert itself
maintains), a call with a sender succeeds and leaves exactly one record with
that pair — carrying the call's action, sender, entity, context, priority,
severity and delivery_method, with `is_read` false regardless of the prior
read state; when the pair was absent a new row is appended, when present the
row count of the pair stays at one and nothing is inserted. -/
theorem C1_grouped_upsert (db : List Notification) (nId : Nat) (a : ServiceArgs)
    (s : PyObject) (act g pr sev dm : String) (t : Int)
    (hs : a.sender = some s)
    (hkey : (db.filter (matchesGroupKey a.user g)).length ≤ 1) :
    ∃ (db2 : List Notification) (n : Notification) (c : Bool),
      Notification.objects.update_or_create db nId a act g pr sev dm t =
        .ok (db2, n, c) ∧
      db2.filter (matchesGroupKey a.user g) = [n] ∧
      n.is_read = false ∧
      n.action = act ∧
      n.sender_type = some s.ctype ∧
      n.sender_id = some s.oid ∧
      n.entity_type = a.entity.map PyObject.ctype ∧
      n.entity_id = a.entity.map PyObject.oid ∧
      n.context = a.context ∧
      n.priority = pr ∧
      n.severity = sev ∧
      n.delivery_method = dm ∧
      (db.filter (matchesGroupKey a.user g) = [] → db2 = db ++ [n] ∧ c = true) ∧
      (∀ old, db.filter (matchesGroupKey a.user g) = [old] →
        db2.length = db.length ∧ c = false) := by
  cases hf : db.filter (matchesGroupKey a.user g) with
  | nil =>
    refine ⟨db ++
      [{ id := nId, user := a.user,
         sender_type := a.sender.map PyObject.ctype,
         sender_id := a.sender.map PyObject.oid,
         action := act,
         entity_type := a.entity.map PyObject.ctype,
         entity_id := a.entity.map PyObject.oid,
         context := a.context,
         is_read := false, is_sent := false, priority := pr,
         expires_at := none, is_visible := true, scope := "user",
         group_id := some g, delivery_method := dm, severity := sev,
         created_at := t, modified_at := t }],
      { id := nId, user := a.user,
        sender_type := a.sender.map PyObject.ctype,
        sender_id := a.sender.map PyObject.oid,
        action := act,
        entity_type := a.entity.map PyObject.ctype,
        entity_id := a.entity.map PyObject.oid,
        context := a.context,
        is_read := false, is_sent := false, priority := pr,
        expires_at := none, is_visible := true, scope := "user",
        group_id := some g, delivery_method := dm, severity := sev,
        created_at := t, modified_at := t },
      true, ?_, ?_, rfl, rfl, by rw [hs] ; rfl, by rw [hs] ; rfl, rfl, rfl,
      rfl, rfl, rfl, rfl, ?_, ?_⟩
    · simp [Notification.objects.update_or_create, Notification.objects.create,
        hf, hs]
    · rw [List.filter_append, hf]
      simp [matchesGroupKey]
    · intro _
      exact ⟨rfl, rfl⟩
    · intro old hold
      simp at hold
  | cons old tail =>
    cases tail with
    | cons b l2 =>
      exfalso
      rw [hf] at hkey
      simp only [List.length_cons] at hkey
      omega
    | nil =>
      have hold : old ∈ db.filter (matchesGroupKey a.user g) := by
        rw [hf]; exact List.mem_cons_self old []
      have hkeyold : matchesGroupKey a.user g old = true :=
        (List.mem_filter.mp hold).2
      have hkeyn : matchesGroupKey a.user g
          { old with
            sender_type := a.sender.map PyObject.ctype,
            sender_id := a.sender.map PyObject.oid,
            action := act,
            entity_type := a.entity.map PyObject.ctype,
            entity_id := a.entity.map PyObject.oid,
            context := a.context,
            priority := pr, severity := sev, delivery_method := dm,
            is_read := false, modified_at := t } = true := hkeyold
      refine ⟨db.map (fun m => if matchesGroupKey a.user g m then
        { old with
          sender_type := a.sender.map PyObject.ctype,
          sender_id := a.sender.map PyObject.oid,
          action := act,
          entity_type := a.entity.map PyObject.ctype,
          entity_id := a.entity.map PyObject.oid,
          context := a.context,
          priority := pr, severity := sev, delivery_method := dm,
          is_read := false, modified_at := t } else m),
        { old with
          sender_type := a.sender.map PyObject.ctype,
          sender_id := a.sender.map PyObject.oid,
          action := act,
          entity_type := a.entity.map PyObject.ctype,
          entity_id := a.entity.map PyObject.oid,
          context := a.context,
          priority := pr, severity := sev, delivery_method := dm,
          is_read := false, modified_at := t },
        false, ?_, ?_, rfl, rfl, by rw [hs] ; rfl, by rw [hs] ; rfl, rfl,
        rfl, rfl, rfl, rfl, rfl, ?_, ?_⟩
      · simp [Notification.objects.update_or_create, hf, hs]
      · rw [filter_map_const (matchesGroupKey a.user g) _ hkeyn db, hf]
        simp
      · intro h0
        simp at h0
      · intro old2 _
        exact ⟨by simp, rfl⟩

/-- C1 witness: the theorem applied to the empty store with concrete
arguments — the call succeeds, exactly one record with the pair remains, and
it is unread. -/
theorem C1_grouped_upsert_witness :
    ∃ (db2 : List Notification) (n : Notification) (c : Bool),
      Notification.objects.update_or_create [] 9 argsEx "liked" "g1" "medium"
        "info" "web" 5 = .ok (db2, n, c) ∧
      db2.filter (matchesGroupKey argsEx.user "g1") = [n] ∧
      n.is_read = false := by
  obtain ⟨db2, n, c, h1, h2, h3, -⟩ :=
    C1_grouped_upsert [] 9 argsEx { ctype := 7, oid := 3 } "liked" "g1"
      "medium" "info" "web" 5 rfl (by decide)
  exact ⟨db2, n, c, h1, h2, h3⟩

/-- Inversion of a successful insert: the store grew by exactly the given row
and that row is what the call handed back. -/
theorem create_ok_inv (db db2 : List Notification) (m n : Notification)
    (h : Notification.objects.create db m = .ok (db2, n)) :
    db2 = db ++ [m] ∧ n = m := by
  by_cases hc : (m.sender_type.isSome && m.sender_id.isSome) = true
  · rw [Notification.objects.create, if_pos hc] at h
    simp only [Except.ok.injEq, Prod.mk.injEq] at h
    exact ⟨h.1.symm, h.2.symm⟩
  · rw [Notification.objects.create, if_neg hc] at h
    exact absurd h (by simp)

/-- Inversion of a successful grouped upsert: the record handed back matches
the lookup key, sits in the resulting store, and is the only record of the
store matching the key. -/
theorem update_or_create_ok_inv (db : List Notification) (nId : Nat)
    (a : ServiceArgs) (act g pr sev dm : String) (t : Int)
    (db2 : List Notification) (n : Notification) (c : Bool)
    (h : Notification.objects.update_or_create db nId a act g pr sev dm t =
      .ok (db2, n, c)) :
    n ∈ db2 ∧ db2.filter (matchesGroupKey a.user g) = [n] := by
  rw [Notification.objects.update_or_create] at h
  cases hf : db.filter (matchesGroupKey a.user g) with
  | nil =>
    rw [hf] at h
    simp only at h
    cases hcr : Notification.objects.create db
      { id := nId, user := a.user,
        sender_type := a.sender.map PyObject.ctype,
        sender_id := a.sender.map PyObject.oid,
        action := act,
        entity_type := a.entity.map PyObject.ctype,
        entity_id := a.entity.map PyObject.oid,
        context := a.context,
        is_read := false, is_sent := false, priority := pr,
        expires_at := none, is_visible := true, scope := "user",
        group_id := some g, delivery_method := dm, severity := sev,
        created_at := t, modified_at := t } with
    | error e => rw [hcr] at h; exact absurd h (by simp)
    | ok pr2 =>
      obtain ⟨db4, n4⟩ := pr2
      rw [hcr] at h
      simp only [Except.ok.injEq, Prod.mk.injEq] at h
      obtain ⟨hdb, hn, -⟩ := h
      obtain ⟨hdb4, hn4⟩ := create_ok_inv db db4 _ n4 hcr
      subst hdb
      subst hn
      subst hn4
      subst hdb4
      constructor
      · exact List.mem_append_right db (List.mem_cons_self _ [])
      · rw [List.filter_append, hf]
        simp [matchesGroupKey]
  | cons old tail =>
    cases tail with
    | cons b l2 =>
      rw [hf] at h
      exact absurd h (by simp)
    | nil =>
      rw [hf] at h
      simp only at h
      by_cases hc : ((a.sender.map PyObject.ctype).isSome &&
          (a.sender.map PyObject.oid).isSome) = true
      · rw [if_pos hc] at h
        simp only [Except.ok.injEq, Prod.mk.injEq] at h
        obtain ⟨hdb, hn, -⟩ := h
        have hold : old ∈ db.filter (matchesGroupKey a.user g) := by
          rw [hf]; exact List.mem_cons_self old []
        have holddb : old ∈ db := (List.mem_filter.mp hold).1
        have hkeyold : matchesGroupKey a.user g old = true :=
          (List.mem_filter.mp hold).2
        have hkeyn : matchesGroupKey a.user g
            { old with
              sender_type := a.sender.map PyObject.ctype,
              sender_id := a.sender.map PyObject.oid,
              action := act,
              entity_type := a.entity.map PyObject.ctype,
              entity_id := a.entity.map PyObject.oid,
              context := a.context,
              priority := pr, severity := sev, delivery_method := dm,
              is_read := false, modified_at := t } = true := hkeyold
        constructor
        · rw [← hdb, ← hn]
          have hmem := List.mem_map_of_mem
            (fun m => if matchesGroupKey a.user g m then
              { old with
                sender_type := a.sender.map PyObject.ctype,
                sender_id := a.sender.map PyObject.oid,
                action := act,
                entity_type := a.entity.map PyObject.ctype,
                entity_id := a.entity.map PyObject.oid,
                context := a.context,
                priority := pr, severity := sev, delivery_method := dm,
                is_read := false, modified_at := t } else m) holddb
          simpa [hkeyold] using hmem
        · rw [← hdb, ← hn]
          rw [filter_map_const (matchesGroupKey a.user g) _ hkeyn db, hf]
          simp
      · rw [if_neg hc] at h
        exact absurd h (by simp)

/-- C7: the claim that the grouped creation call returns the record together
with a created flag is false: the call returns only the record.  Concretely,
a call on the empty store (which inserts, `created = true` inside
`update_or_create`) and a call on a store already holding the pair (which
updates, `created = false`) return the very same value, so the return value
carries no indication of whether the record was newly created. -/
theorem C7_counterexample :
    Notification.objects.update_or_create [] 9 argsEx "liked" "g1" "medium"
      "info" "web" 5 = .ok ([groupedEx], groupedEx, true) ∧
    Notification.objects.update_or_create [groupedOldEx] 9 argsEx "liked" "g1"
      "medium" "info" "web" 5 = .ok ([groupedEx], groupedEx, false) ∧
    GroupNotificationService.create_notification [] 9 argsEx "liked" "g1"
      "medium" "info" "web" 5 =
      GroupNotificationService.create_notification [groupedOldEx] 9 argsEx
        "liked" "g1" "medium" "info" "web" 5 := by
  refine ⟨?_, ?_, ?_⟩ <;> rfl

/-- C7 (amended): the grouped creation call returns the resulting notification
record only — the record that, after the call, is the unique record in storage
for the (recipient, group_id) pair; the created flag computed by the
underlying upsert is discarded and is not part of the return value. -/
theorem C7_returns_record_only (db : List Notification) (nId : Nat)
    (a : ServiceArgs) (act g pr sev dm : String) (t : Int)
    (db2 : List Notification) (n : Notification)
    (h : GroupNotificationService.create_notification db nId a act g pr sev dm t =
      .ok (db2, n)) :
    n ∈ db2 ∧ db2.filter (matchesGroupKey a.user g) = [n] := by
  rw [GroupNotificationService.create_notification] at h
  cases huoc : Notification.objects.update_or_create db nId a act g pr sev dm t with
  | error e => rw [huoc] at h; exact absurd h (by simp)
  | ok trip =>
    obtain ⟨db3, n3, c3⟩ := trip
    rw [huoc] at h
    simp only [Except.ok.injEq, Prod.mk.injEq] at h
    obtain ⟨hdb, hn⟩ := h
    subst hdb
    subst hn
    exact update_or_create_ok_inv db nId a act g pr sev dm t db3 n3 c3 huoc

/-- C7 amended-claim witness: the theorem applied to the concrete updating
call of the counterexample. -/
theorem C7_returns_record_only_witness :
    groupedEx ∈ [groupedEx] ∧
    List.filter (matchesGroupKey argsEx.user "g1") [groupedEx] = [groupedEx] :=
  C7_returns_record_only [groupedOldEx] 9 argsEx "liked" "g1" "medium" "info"
    "web" 5 [groupedEx] groupedEx rfl
